import Mathlib

/-!
Shallow embedding of the producer/consumer core of the repository
(Assignment_1/src): the bounded thread-safe FIFO queue (custom_queue.py),
the producer and consumer worker loops (producer.py, consumer.py), the
coordinator (coordinator.py) and the metrics record (config.py).

Sequential semantics: each queue operation is a function from the queue
state to an outcome.  A blocking wait that no concurrent thread can ever
satisfy is modelled by the dedicated outcome blockForever; a timed wait on
a condition that never becomes true times out (the queue raises Full or
Empty), since in a single linearized step no other thread runs in between.
Python floats (timeouts, timestamps) are modelled as rationals.
-/

namespace Assignment1

/-- State of ThreadSafeQueue (custom_queue.py): the internal deque, with its
head at the front of the list, and the maxsize bound (maxsize ≤ 0 means
unbounded).  The lock and the two condition variables carry no state that is
visible to the sequential semantics. -/
structure ThreadSafeQueue (α : Type) where
  queue : List α
  maxsize : Int
  deriving Repr, DecidableEq

/-- Outcome of ThreadSafeQueue.put.  Each constructor carries the queue state
after the call: ok is a normal return, fullErr is raise QueueFull, valueErr is
raise ValueError, and blockForever is an indefinite wait that no other thread
can end (under the sequential semantics nothing changes the queue while put
holds the lock). -/
inductive PutOutcome (α : Type) where
  | ok (q : ThreadSafeQueue α)
  | fullErr (q : ThreadSafeQueue α)
  | valueErr (q : ThreadSafeQueue α)
  | blockForever (q : ThreadSafeQueue α)
  deriving Repr, DecidableEq

/-- Outcome of ThreadSafeQueue.get, symmetric to PutOutcome; ok carries the
removed item. -/
inductive GetOutcome (α : Type) where
  | ok (item : α) (q : ThreadSafeQueue α)
  | emptyErr (q : ThreadSafeQueue α)
  | valueErr (q : ThreadSafeQueue α)
  | blockForever (q : ThreadSafeQueue α)
  deriving Repr, DecidableEq

namespace ThreadSafeQueue

variable {α : Type}

/-- Internal size helper, custom_queue.py line 229: len(self._queue). -/
def qsizeInternal (q : ThreadSafeQueue α) : Nat :=
  q.queue.length

/-- ThreadSafeQueue.put (custom_queue.py lines 61-118).  The branch structure
follows the source exactly: the whole full-queue check is guarded by
maxsize > 0; under it, non-blocking mode raises QueueFull when at capacity,
blocking mode with timeout None waits (forever, sequentially) while at
capacity, a negative timeout raises ValueError, and a non-negative timeout
waits at most that long and then raises QueueFull (sequentially: it raises
exactly when at capacity).  Otherwise the item is appended to the tail. -/
def put (q : ThreadSafeQueue α) (item : α) (block : Bool)
    (timeout : Option ℚ) : PutOutcome α :=
  if 0 < q.maxsize then
    if !block then
      if q.maxsize ≤ (q.qsizeInternal : Int) then
        PutOutcome.fullErr q
      else
        PutOutcome.ok { q with queue := q.queue ++ [item] }
    else
      match timeout with
      | none =>
          if q.maxsize ≤ (q.qsizeInternal : Int) then
            PutOutcome.blockForever q
          else
            PutOutcome.ok { q with queue := q.queue ++ [item] }
      | some d =>
          if d < 0 then
            PutOutcome.valueErr q
          else
            if q.maxsize ≤ (q.qsizeInternal : Int) then
              PutOutcome.fullErr q
            else
              PutOutcome.ok { q with queue := q.queue ++ [item] }
  else
    PutOutcome.ok { q with queue := q.queue ++ [item] }

/-- ThreadSafeQueue.get (custom_queue.py lines 120-177).  Non-blocking mode
raises QueueEmpty when the queue is empty; blocking mode with timeout None
waits (forever, sequentially) while empty; a negative timeout raises
ValueError; a non-negative timeout raises QueueEmpty exactly when the queue
is empty.  Otherwise the head of the deque is popped and returned. -/
def get (q : ThreadSafeQueue α) (block : Bool)
    (timeout : Option ℚ) : GetOutcome α :=
  if !block then
    match q.queue with
    | [] => GetOutcome.emptyErr q
    | x :: rest => GetOutcome.ok x { q with queue := rest }
  else
    match timeout with
    | none =>
        match q.queue with
        | [] => GetOutcome.blockForever q
        | x :: rest => GetOutcome.ok x { q with queue := rest }
    | some d =>
        if d < 0 then
          GetOutcome.valueErr q
        else
          match q.queue with
          | [] => GetOutcome.emptyErr q
          | x :: rest => GetOutcome.ok x { q with queue := rest }

/-- ThreadSafeQueue.qsize (custom_queue.py lines 179-194). -/
def qsize (q : ThreadSafeQueue α) : Nat :=
  q.qsizeInternal

/-- ThreadSafeQueue.empty (custom_queue.py lines 196-210). -/
def empty (q : ThreadSafeQueue α) : Bool :=
  q.qsizeInternal = 0

/-- ThreadSafeQueue.full (custom_queue.py lines 212-227):
0 < self._maxsize <= self._qsize(). -/
def full (q : ThreadSafeQueue α) : Bool :=
  0 < q.maxsize ∧ q.maxsize ≤ (q.qsizeInternal : Int)

end ThreadSafeQueue

/-- A single client call on the queue, with its arguments. -/
inductive QOp (α : Type) where
  | put (item : α) (block : Bool) (timeout : Option ℚ)
  | get (block : Bool) (timeout : Option ℚ)
  deriving Repr

/-- The queue state after one client call: a normal return installs the new
state; a raised QueueFull, QueueEmpty or ValueError leaves the queue as the
call found it, and so does a wait that never returns. -/
def ThreadSafeQueue.step (q : ThreadSafeQueue α) (op : QOp α) :
    ThreadSafeQueue α :=
  match op with
  | QOp.put x b t =>
      match q.put x b t with
      | PutOutcome.ok q' => q'
      | PutOutcome.fullErr q' => q'
      | PutOutcome.valueErr q' => q'
      | PutOutcome.blockForever q' => q'
  | QOp.get b t =>
      match q.get b t with
      | GetOutcome.ok _ q' => q'
      | GetOutcome.emptyErr q' => q'
      | GetOutcome.valueErr q' => q'
      | GetOutcome.blockForever q' => q'

/-- All states the queue passes through while a sequence of calls runs,
including the initial and final states. -/
def ThreadSafeQueue.statesOf (q : ThreadSafeQueue α) :
    List (QOp α) → List (ThreadSafeQueue α)
  | [] => [q]
  | op :: ops => q :: ThreadSafeQueue.statesOf (q.step op) ops

/-- Run a producer's sequence of blocking puts (put item, block=True,
timeout=None) in source order; none fails when some put never returns. -/
def ThreadSafeQueue.putSeq (q : ThreadSafeQueue α) :
    List α → Option (ThreadSafeQueue α)
  | [] => some q
  | x :: rest =>
      match q.put x true none with
      | PutOutcome.ok q' => q'.putSeq rest
      | _ => none

/-- Run n blocking gets (get block=True, timeout=None), collecting the removed
items in order; none when some get never returns. -/
def ThreadSafeQueue.getSeq (q : ThreadSafeQueue α) :
    Nat → Option (List α × ThreadSafeQueue α)
  | 0 => some ([], q)
  | n + 1 =>
      match q.get true none with
      | GetOutcome.ok x q' =>
          match q'.getSeq n with
          | some (xs, q'') => some (x :: xs, q'')
          | none => none
      | _ => none

example :
    ThreadSafeQueue.putSeq { queue := [], maxsize := 0 } [1, 2, 3] =
      some { queue := [1, 2, 3], maxsize := 0 } := by decide

example :
    ThreadSafeQueue.getSeq (α := Nat) { queue := [1, 2], maxsize := 2 } 2 =
      some ([1, 2], { queue := [], maxsize := 2 }) := by decide

example :
    ThreadSafeQueue.put (α := Nat) { queue := [], maxsize := 0 } 7 true
      (some (-1)) = PutOutcome.ok { queue := [7], maxsize := 0 } := by decide

/-- ProducerConfig (config.py lines 13-34). -/
structure ProducerConfig where
  name : String
  put_timeout : Option ℚ := none
  delay_between_items : ℚ := 0
  stop_on_error : Bool := true
  deriving Repr, DecidableEq

/-- ConsumerConfig (config.py lines 37-58). -/
structure ConsumerConfig where
  name : String
  get_timeout : Option ℚ := none
  delay_between_items : ℚ := 0
  stop_on_error : Bool := true
  deriving Repr, DecidableEq

/-- SystemMetrics (config.py lines 85-109): counters and timestamps, all
zero-initialized. -/
structure SystemMetrics where
  items_produced : Nat := 0
  items_consumed : Nat := 0
  producer_errors : Nat := 0
  consumer_errors : Nat := 0
  start_time : ℚ := 0
  end_time : ℚ := 0
  execution_duration : ℚ := 0
  deriving Repr, DecidableEq

/-- SystemMetrics.calculate_duration (config.py lines 111-114):
if self.start_time and self.end_time (Python float truthiness: nonzero),
set execution_duration to their difference; otherwise do nothing. -/
def SystemMetrics.calculate_duration (m : SystemMetrics) : SystemMetrics :=
  if m.start_time ≠ 0 ∧ m.end_time ≠ 0 then
    { m with execution_duration := m.end_time - m.start_time }
  else
    m

/-- The observable outcome of one Producer._run execution (producer.py lines
121-179): counters, whether a ProducerError aborted the loop (stop_on_error
after a failed per-item insert), and the arguments (block, timeout) of the
queue.put call that sent the sentinel, when one was made. -/
structure ProducerRunResult where
  items_produced : Nat
  errors_encountered : Nat
  failed : Bool
  sentinelCall : Option (Bool × Option ℚ)
  deriving Repr, DecidableEq

/-- Producer._run (producer.py lines 121-179) with _produce_item (lines
181-214) and _send_sentinel (lines 216-233), in sequential form.  Two
oracle lists resolve the interactions the thread cannot decide on its own:
flags gives the value the loop reads from the _is_running flag at each
iteration (stop() would make it false), and oks tells whether each attempted
queue.put of an item returns normally or raises (QueueFull on timeout).  On
a per-item failure, the error counter is incremented; with stop_on_error the
loop re-raises and _send_sentinel is never reached; otherwise the loop moves
on.  When the source is exhausted, or the flag was read as false, the
sentinel is sent via queue.put(sentinel, block=True, timeout=None). -/
def producerRun (cfg : ProducerConfig) (source : List α)
    (flags oks : List Bool) (produced errors : Nat) : ProducerRunResult :=
  match source with
  | [] =>
      { items_produced := produced, errors_encountered := errors,
        failed := false, sentinelCall := some (true, none) }
  | _ :: rest =>
      if flags.headD true = false then
        { items_produced := produced, errors_encountered := errors,
          failed := false, sentinelCall := some (true, none) }
      else
        if oks.headD true then
          producerRun cfg rest flags.tail oks.tail (produced + 1) errors
        else
          if cfg.stop_on_error then
            { items_produced := produced, errors_encountered := errors + 1,
              failed := true, sentinelCall := none }
          else
            producerRun cfg rest flags.tail oks.tail produced (errors + 1)

/-- Mutable state of the Consumer loop (consumer.py): the destination list
and the two counters. -/
structure ConsumerLoopState (α : Type) where
  destination : List α
  items_consumed : Nat
  errors_encountered : Nat
  deriving Repr, DecidableEq

/-- What one iteration of Consumer._run does with the loop: keep looping
(with the given state) or break out of it. -/
inductive ConsumerStepOutcome (α : Type) where
  | continueLoop (s : ConsumerLoopState α)
  | breakLoop (s : ConsumerLoopState α)
  deriving Repr, DecidableEq

/-- Result of the queue.get call an iteration makes: a value, or the
QueueEmpty raised when the configured get_timeout elapses. -/
inductive GetAttempt (α : Type) where
  | ok (item : α)
  | emptyTimeout
  deriving Repr, DecidableEq

/-- One iteration of Consumer._run (consumer.py lines 134-177), given the
result of its queue.get(block=True, timeout=config.get_timeout) call: on
QueueEmpty, continue (no counter changes); on a value equal to the sentinel,
break; otherwise _consume_item (lines 194-225) appends the value to the
destination and increments items_consumed. -/
def consumerStep [DecidableEq α] (sentinel : α) (s : ConsumerLoopState α)
    (res : GetAttempt α) : ConsumerStepOutcome α :=
  match res with
  | GetAttempt.emptyTimeout => ConsumerStepOutcome.continueLoop s
  | GetAttempt.ok item =>
      if item = sentinel then
        ConsumerStepOutcome.breakLoop s
      else
        ConsumerStepOutcome.continueLoop
          { destination := s.destination ++ [item],
            items_consumed := s.items_consumed + 1,
            errors_encountered := s.errors_encountered }

/-- Observable state of a Producer object (producer.py lines 45-74): the
counters, the _is_running flag, and whether a worker thread was created by
start() (thread = none exactly when start() was never called, matching
self._thread is None). -/
structure Producer where
  items_produced : Nat := 0
  errors_encountered : Nat := 0
  is_running : Bool := false
  thread : Option Unit := none
  deriving Repr, DecidableEq

/-- Producer.join (producer.py lines 96-119): if self._thread is None return
True; otherwise join with the given timeout and return
not self._thread.is_alive().  Whether the thread is still alive after the
join attempt depends on the scheduler, so it is passed in as aliveAfter. -/
def Producer.join (p : Producer) (timeout : Option ℚ)
    (aliveAfter : Bool) : Bool :=
  match p.thread with
  | none => true
  | some _ =>
      let _ := timeout
      !aliveAfter

/-- Observable state of a Consumer object (consumer.py lines 45-74),
symmetric to Producer. -/
structure Consumer where
  items_consumed : Nat := 0
  errors_encountered : Nat := 0
  is_running : Bool := false
  thread : Option Unit := none
  deriving Repr, DecidableEq

/-- Consumer.join (consumer.py lines 96-119), same shape as Producer.join. -/
def Consumer.join (c : Consumer) (timeout : Option ℚ)
    (aliveAfter : Bool) : Bool :=
  match c.thread with
  | none => true
  | some _ =>
      let _ := timeout
      !aliveAfter

/-- The CoordinatorError exception (exceptions.py). -/
inductive CoordinatorError where
  | coordinatorError
  deriving Repr, DecidableEq

/-- State of a Coordinator (coordinator.py lines 42-64): the managed
producer and consumer lists and the metrics object created at init (the
config only carries names and timeouts that do not affect the operations
modelled here). -/
structure Coordinator where
  producers : List Producer
  consumers : List Consumer
  metrics : SystemMetrics := {}
  deriving Repr, DecidableEq

/-- Coordinator.add_producer (coordinator.py lines 66-85): raise
CoordinatorError if any managed PRODUCER is running (the source checks only
self.producers), else append the producer to the list. -/
def Coordinator.add_producer (c : Coordinator) (p : Producer) :
    Except CoordinatorError Coordinator :=
  if c.producers.any (fun w => w.is_running) then
    Except.error CoordinatorError.coordinatorError
  else
    Except.ok { c with producers := c.producers ++ [p] }

/-- Coordinator.add_consumer (coordinator.py lines 87-106): raise
CoordinatorError if any managed CONSUMER is running (the source checks only
self.consumers), else append the consumer to the list. -/
def Coordinator.add_consumer (c : Coordinator) (w : Consumer) :
    Except CoordinatorError Coordinator :=
  if c.consumers.any (fun x => x.is_running) then
    Except.error CoordinatorError.coordinatorError
  else
    Except.ok { c with consumers := c.consumers ++ [w] }

/-- Coordinator._collect_metrics (coordinator.py lines 235-257): overwrite
the four counters of the metrics object with the sums over the managed
workers. -/
def Coordinator.collect_metrics (c : Coordinator) (m : SystemMetrics) :
    SystemMetrics :=
  { m with
    items_produced := (c.producers.map Producer.items_produced).sum,
    items_consumed := (c.consumers.map Consumer.items_consumed).sum,
    producer_errors := (c.producers.map Producer.errors_encountered).sum,
    consumer_errors := (c.consumers.map Consumer.errors_encountered).sum }

/-- The metrics assembly of a successful Coordinator.run (coordinator.py
lines 146-176): set metrics.start_time to the start timestamp, run the
workers (their final counters are the ones recorded in c), set
metrics.end_time, call calculate_duration, then _collect_metrics, and
return the metrics. -/
def Coordinator.runMetrics (c : Coordinator) (t1 t2 : ℚ) : SystemMetrics :=
  let m1 := { c.metrics with start_time := t1 }
  let m2 := { m1 with end_time := t2 }
  c.collect_metrics m2.calculate_duration

/-! Helper lemmas about the queue operations. -/

/-- A blocking put with no timeout returns normally and appends to the tail
whenever the queue is unbounded or strictly below capacity. -/
theorem ThreadSafeQueue.put_blocking_ok {α : Type} (q : ThreadSafeQueue α)
    (x : α) (h : q.maxsize ≤ 0 ∨ (q.queue.length : ℤ) < q.maxsize) :
    q.put x true none = PutOutcome.ok { q with queue := q.queue ++ [x] } := by
  rcases h with h | h
  · simp [ThreadSafeQueue.put, not_lt.mpr h]
  · have h0 : 0 < q.maxsize := lt_of_le_of_lt (Int.ofNat_nonneg _) h
    simp [ThreadSafeQueue.put, ThreadSafeQueue.qsizeInternal, h0,
      not_le.mpr h]

/-- A blocking get with no timeout on a nonempty queue pops the head. -/
theorem ThreadSafeQueue.get_blocking_ok {α : Type} (q : ThreadSafeQueue α)
    (x : α) (rest : List α) (h : q.queue = x :: rest) :
    q.get true none = GetOutcome.ok x { q with queue := rest } := by
  simp [ThreadSafeQueue.get, h]

/-- Running a producer's blocking puts appends the whole source, in order, to
the tail of the queue, provided the queue is unbounded or has room for all of
it. -/
theorem ThreadSafeQueue.putSeq_ok {α : Type} :
    ∀ (xs : List α) (q : ThreadSafeQueue α),
      q.maxsize ≤ 0 ∨ (q.queue.length : ℤ) + xs.length ≤ q.maxsize →
      q.putSeq xs = some { q with queue := q.queue ++ xs }
  | [], q, _ => by
      simp [ThreadSafeQueue.putSeq]
  | x :: rest, q, h => by
      have hsp : q.maxsize ≤ 0 ∨ (q.queue.length : ℤ) < q.maxsize := by
        rcases h with h | h
        · exact Or.inl h
        · right
          simp only [List.length_cons] at h
          push_cast at h
          omega
      have hrec :=
        ThreadSafeQueue.putSeq_ok rest { q with queue := q.queue ++ [x] }
          (by
            rcases h with h | h
            · exact Or.inl h
            · right
              simp only [List.length_append, List.length_cons,
                List.length_nil] at h ⊢
              push_cast at h ⊢
              omega)
      rw [ThreadSafeQueue.putSeq, ThreadSafeQueue.put_blocking_ok q x hsp]
      simpa using hrec

/-- Blocking gets return exactly the first n items of the queue, in order. -/
theorem ThreadSafeQueue.getSeq_ok {α : Type} :
    ∀ (xs rest : List α) (k : ℤ),
      ThreadSafeQueue.getSeq { queue := xs ++ rest, maxsize := k }
          xs.length =
        some (xs, { queue := rest, maxsize := k })
  | [], rest, k => by
      simp [ThreadSafeQueue.getSeq]
  | x :: xs, rest, k => by
      rw [List.length_cons, ThreadSafeQueue.getSeq,
        ThreadSafeQueue.get_blocking_ok _ x (xs ++ rest) (by simp)]
      dsimp only
      rw [ThreadSafeQueue.getSeq_ok xs rest k]

/-- Claim C1: for every finite sequence of items, inserting them with put and
then removing them with get on a ThreadSafeQueue (unbounded, or with capacity
for the whole sequence, so that every operation completes) returns exactly
the inserted sequence in insertion order: put appends to the tail and get
removes from the head. -/
theorem fifo_put_then_get (xs : List ℕ) (k : ℤ)
    (h : k ≤ 0 ∨ (xs.length : ℤ) ≤ k) :
    ∃ q : ThreadSafeQueue ℕ,
      ThreadSafeQueue.putSeq { queue := [], maxsize := k } xs = some q ∧
        q.getSeq xs.length = some (xs, { queue := [], maxsize := k }) := by
  refine ⟨{ queue := xs, maxsize := k }, ?_, ?_⟩
  · have := ThreadSafeQueue.putSeq_ok xs { queue := [], maxsize := k }
      (by simpa using h)
    simpa using this
  · simpa using ThreadSafeQueue.getSeq_ok xs [] k

theorem fifo_put_then_get_witness :
    ((0 : ℤ) ≤ 0 ∨ ((3 : ℕ) : ℤ) ≤ 0) ∧
      ∃ q : ThreadSafeQueue ℕ,
        ThreadSafeQueue.putSeq { queue := [], maxsize := 0 } [4, 5, 6] =
            some q ∧
          q.getSeq 3 = some ([4, 5, 6], { queue := [], maxsize := 0 }) :=
  ⟨Or.inl (by decide), fifo_put_then_get [4, 5, 6] 0 (Or.inl (by decide))⟩

/-- One client call on a bounded queue whose size is within bound leaves the
size within bound, and never changes maxsize. -/
theorem ThreadSafeQueue.step_bound {α : Type} (q : ThreadSafeQueue α)
    (op : QOp α) (hK : 0 < q.maxsize)
    (h : (q.queue.length : ℤ) ≤ q.maxsize) :
    ((q.step op).queue.length : ℤ) ≤ q.maxsize ∧
      (q.step op).maxsize = q.maxsize := by
  cases op with
  | put x b t =>
      simp only [ThreadSafeQueue.step, ThreadSafeQueue.put,
        ThreadSafeQueue.qsizeInternal, if_pos hK]
      cases b <;> rcases t with _ | d <;> simp <;> split_ifs <;>
        simp_all <;> omega
  | get b t =>
      simp only [ThreadSafeQueue.step, ThreadSafeQueue.get]
      cases b <;> rcases t with _ | d <;>
        rcases hq : q.queue with _ | ⟨y, rest⟩ <;>
        simp_all <;>
        first
          | omega
          | (split_ifs <;> simp_all <;> omega)

/-- Every state reached from a within-bound state of a bounded queue stays
within the bound. -/
theorem ThreadSafeQueue.statesOf_bound {α : Type} :
    ∀ (ops : List (QOp α)) (q : ThreadSafeQueue α),
      0 < q.maxsize → (q.queue.length : ℤ) ≤ q.maxsize →
      ∀ s ∈ ThreadSafeQueue.statesOf q ops,
        (s.queue.length : ℤ) ≤ q.maxsize
  | [], _, _, h, s, hs => by
      simp only [ThreadSafeQueue.statesOf, List.mem_singleton] at hs
      subst hs
      exact h
  | op :: ops, q, hK, h, s, hs => by
      simp only [ThreadSafeQueue.statesOf, List.mem_cons] at hs
      rcases hs with rfl | hs
      · exact h
      · have hb := ThreadSafeQueue.step_bound q op hK h
        have hrec := ThreadSafeQueue.statesOf_bound ops (q.step op)
          (by rw [hb.2]; exact hK) (by rw [hb.2]; exact hb.1) s hs
        rwa [hb.2] at hrec

/-- Claim C2: for a ThreadSafeQueue constructed with maxsize K > 0, every
sequence of put and get calls starting from the empty queue keeps the size
within 0 and K at every instant: no put makes the internal queue length
exceed K. -/
theorem bounded_size_invariant (K : ℤ) (ops : List (QOp ℕ)) (hK : 0 < K) :
    ∀ s ∈ ThreadSafeQueue.statesOf { queue := [], maxsize := K } ops,
      0 ≤ (s.qsize : ℤ) ∧ (s.qsize : ℤ) ≤ K := by
  intro s hs
  refine ⟨Int.ofNat_nonneg _, ?_⟩
  exact ThreadSafeQueue.statesOf_bound ops { queue := [], maxsize := K } hK
    (by simp; omega) s hs

theorem bounded_size_invariant_witness :
    (0 : ℤ) < 2 ∧
      ∀ s ∈ ThreadSafeQueue.statesOf { queue := [], maxsize := 2 }
          [QOp.put 7 true none, QOp.put 8 false none,
            QOp.put 9 false none, QOp.get true none],
        0 ≤ (s.qsize : ℤ) ∧ (s.qsize : ℤ) ≤ 2 :=
  ⟨by decide,
    bounded_size_invariant 2
      [QOp.put 7 true none, QOp.put 8 false none,
        QOp.put 9 false none, QOp.get true none] (by decide)⟩

/-- Claim C3: whenever Producer._run ends its loop normally — the source is
exhausted or the _is_running flag was read as false — the sentinel is sent
with queue.put(sentinel, block=True, timeout=None), never with the configured
put_timeout; and when the run fails instead, necessarily stop_on_error was
set after a failed per-item insert, and no sentinel call was made. -/
theorem producer_sentinel_and_failure {α : Type} (cfg : ProducerConfig)
    (source : List α) (flags oks : List Bool) (produced errors : Nat) :
    ((producerRun cfg source flags oks produced errors).failed = false →
      (producerRun cfg source flags oks produced errors).sentinelCall =
        some (true, (none : Option ℚ))) ∧
    ((producerRun cfg source flags oks produced errors).failed = true →
      cfg.stop_on_error = true ∧
        (producerRun cfg source flags oks produced errors).sentinelCall =
          none) ∧
    (cfg.stop_on_error = true →
      (producerRun cfg source flags oks produced errors).failed = false →
      (producerRun cfg source flags oks produced errors).errors_encountered =
        errors) := by
  induction source generalizing flags oks produced errors with
  | nil =>
      simp [producerRun]
  | cons x rest ih =>
      by_cases hf : flags.head?.getD true = false
      · simp [producerRun, hf]
      · by_cases ho : oks.head?.getD true = true
        · simpa [producerRun, hf, ho] using
            ih flags.tail oks.tail (produced + 1) errors
        · by_cases hs : cfg.stop_on_error = true
          · simp [producerRun, hf, ho, hs]
          · simpa [producerRun, hf, ho, hs] using
              ih flags.tail oks.tail produced (errors + 1)

theorem producer_sentinel_and_failure_witness :
    (producerRun { name := "p" } [0, 1] [true, true] [true, true]
          0 0).sentinelCall =
      some (true, (none : Option ℚ)) :=
  (producer_sentinel_and_failure { name := "p" } [0, 1] [true, true]
      [true, true] 0 0).1 rfl

/-- Claim C4: one iteration of Consumer._run, given the result of its
queue.get call: a QueueEmpty timeout continues the loop with every counter
and the destination unchanged; a removed value equal to the sentinel breaks
the loop without touching any counter; any other removed value is appended
to the destination and increments items_consumed by one, leaving the error
counter unchanged. -/
theorem consumer_step_behavior {α : Type} [DecidableEq α] (sentinel x : α)
    (s : ConsumerLoopState α) :
    consumerStep sentinel s GetAttempt.emptyTimeout =
        ConsumerStepOutcome.continueLoop s ∧
    consumerStep sentinel s (GetAttempt.ok sentinel) =
        ConsumerStepOutcome.breakLoop s ∧
    (x ≠ sentinel →
      consumerStep sentinel s (GetAttempt.ok x) =
        ConsumerStepOutcome.continueLoop
          { destination := s.destination ++ [x],
            items_consumed := s.items_consumed + 1,
            errors_encountered := s.errors_encountered }) := by
  refine ⟨rfl, ?_, ?_⟩
  · simp [consumerStep]
  · intro hx
    simp [consumerStep, hx]

theorem consumer_step_behavior_witness :
    consumerStep 0 (⟨[], 0, 0⟩ : ConsumerLoopState ℕ) (GetAttempt.ok 1) =
      ConsumerStepOutcome.continueLoop ⟨[1], 1, 0⟩ :=
  (consumer_step_behavior 0 1 ⟨[], 0, 0⟩).2.2 (by decide)

/-- Claim C5 is false as stated: on an UNBOUNDED ThreadSafeQueue (maxsize 0)
a blocking put with negative timeout -1 does not raise ValueError at all —
the validation sits inside the maxsize > 0 branch of put, so the call
returns normally and appends the item. -/
theorem negative_timeout_counterexample :
    ThreadSafeQueue.put (α := ℕ) { queue := [], maxsize := 0 } 7 true
        (some (-1)) =
      PutOutcome.ok { queue := [7], maxsize := 0 } ∧
    ThreadSafeQueue.put (α := ℕ) { queue := [], maxsize := 0 } 7 true
        (some (-1)) ≠
      PutOutcome.valueErr { queue := [], maxsize := 0 } := by
  constructor
  · decide
  · decide

/-- Claim C5 amended: with block=True and a negative timeout, get always
raises ValueError before any blocking and leaves the queue unchanged, and
put does so exactly on bounded queues (maxsize > 0); on an unbounded queue
put skips the validation and appends the item. -/
theorem negative_timeout_validation {α : Type} (q : ThreadSafeQueue α)
    (x : α) (d : ℚ) (hd : d < 0) :
    (0 < q.maxsize → q.put x true (some d) = PutOutcome.valueErr q) ∧
    q.get true (some d) = GetOutcome.valueErr q ∧
    (q.maxsize ≤ 0 →
      q.put x true (some d) =
        PutOutcome.ok { q with queue := q.queue ++ [x] }) := by
  refine ⟨?_, ?_, ?_⟩
  · intro h0
    simp [ThreadSafeQueue.put, h0, hd]
  · simp [ThreadSafeQueue.get, hd]
  · intro h0
    simp [ThreadSafeQueue.put, not_lt.mpr h0]

theorem negative_timeout_validation_witness :
    ThreadSafeQueue.put (α := ℕ) { queue := [], maxsize := 5 } 1 true
        (some (-1)) =
      PutOutcome.valueErr { queue := [], maxsize := 5 } ∧
    ThreadSafeQueue.get (α := ℕ) { queue := [2], maxsize := 5 } true
        (some (-1)) =
      GetOutcome.valueErr { queue := [2], maxsize := 5 } :=
  ⟨(negative_timeout_validation { queue := [], maxsize := 5 } 1 (-1)
        (by norm_num)).1 (by norm_num),
    (negative_timeout_validation { queue := [2], maxsize := 5 } (2 : ℕ) (-1)
        (by norm_num)).2.1⟩

/-- Claim C7: a non-blocking put on a bounded queue at capacity raises
QueueFull immediately and leaves the queue unchanged, and a non-blocking get
on an empty queue raises QueueEmpty immediately and leaves the queue
unchanged, whatever the timeout argument. -/
theorem nonblocking_full_and_empty {α : Type} (qf qe : ThreadSafeQueue α)
    (x : α) (t u : Option ℚ) (hb : 0 < qf.maxsize)
    (hfull : qf.maxsize ≤ (qf.queue.length : ℤ)) (he : qe.queue = []) :
    qf.put x false t = PutOutcome.fullErr qf ∧
    qe.get false u = GetOutcome.emptyErr qe := by
  constructor
  · simp [ThreadSafeQueue.put, ThreadSafeQueue.qsizeInternal, hb, hfull]
  · simp [ThreadSafeQueue.get, he]

theorem nonblocking_full_and_empty_witness :
    ThreadSafeQueue.put (α := ℕ) { queue := [1, 2], maxsize := 2 } 3 false
        none =
      PutOutcome.fullErr { queue := [1, 2], maxsize := 2 } ∧
    ThreadSafeQueue.get (α := ℕ) { queue := [], maxsize := 2 } false none =
      GetOutcome.emptyErr { queue := [], maxsize := 2 } :=
  nonblocking_full_and_empty { queue := [1, 2], maxsize := 2 }
    { queue := [], maxsize := 2 } 3 none none (by norm_num) (by norm_num)
    rfl

/-- Claim C6 is false as stated: add_producer only checks the producer list
for a running worker.  With no producers and one RUNNING consumer,
add_producer does not raise CoordinatorError; it appends the producer. -/
theorem add_producer_counterexample :
    Coordinator.add_producer
        { producers := [],
          consumers := [{ is_running := true }] } {} =
      Except.ok
        { producers := [{}],
          consumers := [{ is_running := true }] } := by
  rfl

/-- Claim C6 amended: add_producer raises CoordinatorError exactly when some
managed PRODUCER is running and otherwise appends the given producer;
add_consumer raises exactly when some managed CONSUMER is running and
otherwise appends the given consumer.  A running worker of the other kind is
not checked. -/
theorem add_worker_running_check (c : Coordinator) (p : Producer)
    (w : Consumer) :
    (c.producers.any (fun y => y.is_running) = true →
      c.add_producer p = Except.error CoordinatorError.coordinatorError) ∧
    (c.producers.any (fun y => y.is_running) = false →
      c.add_producer p = Except.ok { c with producers := c.producers ++ [p] }) ∧
    (c.consumers.any (fun y => y.is_running) = true →
      c.add_consumer w = Except.error CoordinatorError.coordinatorError) ∧
    (c.consumers.any (fun y => y.is_running) = false →
      c.add_consumer w =
        Except.ok { c with consumers := c.consumers ++ [w] }) := by
  refine ⟨?_, ?_, ?_, ?_⟩ <;> intro h <;>
    simp [Coordinator.add_producer, Coordinator.add_consumer, h]

theorem add_worker_running_check_witness :
    Coordinator.add_producer { producers := [], consumers := [] } {} =
      Except.ok { producers := [{}], consumers := [] } ∧
    Coordinator.add_consumer { producers := [], consumers := [] } {} =
      Except.ok { producers := [], consumers := [{}] } :=
  ⟨(add_worker_running_check { producers := [], consumers := [] } {}
        {}).2.1 rfl,
    (add_worker_running_check { producers := [], consumers := [] } {}
        {}).2.2.2 rfl⟩

/-- Claim C8: a successful Coordinator.run with (nonzero) clock readings t1
and t2 returns metrics whose four counters are the sums of the per-worker
counters and whose execution_duration is end_time minus start_time. -/
theorem run_metrics_aggregation (c : Coordinator) (t1 t2 : ℚ)
    (h1 : t1 ≠ 0) (h2 : t2 ≠ 0) :
    c.runMetrics t1 t2 =
      { items_produced := (c.producers.map Producer.items_produced).sum,
        items_consumed := (c.consumers.map Consumer.items_consumed).sum,
        producer_errors := (c.producers.map Producer.errors_encountered).sum,
        consumer_errors := (c.consumers.map Consumer.errors_encountered).sum,
        start_time := t1,
        end_time := t2,
        execution_duration := t2 - t1 } := by
  simp [Coordinator.runMetrics, Coordinator.collect_metrics,
    SystemMetrics.calculate_duration, h1, h2]

theorem run_metrics_aggregation_witness :
    Coordinator.runMetrics
        { producers := [{ items_produced := 3, errors_encountered := 1 },
                        { items_produced := 4 }],
          consumers := [{ items_consumed := 7, errors_encountered := 2 }] }
        1 4 =
      { items_produced := 7, items_consumed := 7, producer_errors := 1,
        consumer_errors := 2, start_time := 1, end_time := 4,
        execution_duration := 3 } := by
  have h := run_metrics_aggregation
    { producers := [{ items_produced := 3, errors_encountered := 1 },
                    { items_produced := 4 }],
      consumers := [{ items_consumed := 7, errors_encountered := 2 }] }
    1 4 (by norm_num) (by norm_num)
  rw [h]
  norm_num

/-- Claim C9: join on a Producer or Consumer whose start() was never called
(internal thread is None) returns True immediately, for every timeout value
including None, whatever the scheduler would have reported. -/
theorem join_without_thread (p : Producer) (c : Consumer) (t u : Option ℚ)
    (a b : Bool) (hp : p.thread = none) (hc : c.thread = none) :
    p.join t a = true ∧ c.join u b = true := by
  constructor
  · simp [Producer.join, hp]
  · simp [Consumer.join, hc]

theorem join_without_thread_witness :
    Producer.join {} none true = true ∧
      Consumer.join {} (some 5) false = true :=
  join_without_thread {} {} none (some 5) true false rfl rfl

/-- Claim C10: SystemMetrics.calculate_duration sets execution_duration to
end_time minus start_time exactly when both timestamps are nonzero (Python
float truthiness), leaving every other field as it was; when either
timestamp equals 0.0 the metrics record is returned entirely unchanged. -/
theorem calculate_duration_conditional (m : SystemMetrics) :
    (m.start_time ≠ 0 → m.end_time ≠ 0 →
      m.calculate_duration =
        { m with execution_duration := m.end_time - m.start_time }) ∧
    (m.start_time = 0 ∨ m.end_time = 0 → m.calculate_duration = m) := by
  constructor
  · intro h1 h2
    simp [SystemMetrics.calculate_duration, h1, h2]
  · intro h
    rcases h with h | h <;> simp [SystemMetrics.calculate_duration, h]

theorem calculate_duration_conditional_witness :
    SystemMetrics.calculate_duration
        { start_time := 1, end_time := 4 } =
      { start_time := 1, end_time := 4, execution_duration := 3 } := by
  have h := (calculate_duration_conditional
      { start_time := 1, end_time := 4 }).1 (by norm_num) (by norm_num)
  rw [h]
  norm_num

end Assignment1
